import Mathlib

/-!
Shallow embedding of `pneumatic_data` (src/src/lib.rs): a partition-aware
cache-aside data layer over a per-partition key-value backend (RocksDB in the
source).  Bytes are modelled as `List Nat`; an `Arc<RwLock<T>>` handle is a
record of an allocation identifier, the guarded value, and a poisoned flag;
the external RocksDB store for a partition is a finite map from keys to bytes
together with fault-injection tables for the store errors the source matches
on (`store.get` / `store.put` returning `Err`, `DBWithThreadMode::open`
failing).  The serialization codec (`serialize_to_bytes_rmp` /
`deserialize_rmp_to`) and the domain `Token` type live in external crates, so
the development is parametric over them.  An environment-wide counter counts
every backend access (open, get, put) so that claims of the form "does not hit
the backend" are statable.
-/

set_option autoImplicit false

deriving instance DecidableEq for Except

namespace Pneumatic

/-- Keys and stored blobs are opaque byte sequences. -/
abbrev Bytes := List Nat

/-- The error taxonomy of `pneumatic_core::data::DataError` as used by lib.rs. -/
inductive DataError where
  | DataNotFound
  | DeserializationError
  | SerializationError
  | Poisoned
  | CacheError
  | FromStore (msg : String)
deriving DecidableEq, Repr

/-- Model of an `Arc<RwLock<α>>` shared handle: an allocation identifier (two
handles are the same shared object iff their identifiers coincide), the
guarded value, and whether the lock is poisoned. -/
structure Handle (α : Type) where
  id : Nat
  value : α
  poisoned : Bool
deriving DecidableEq, Repr

/-- First-match association-list lookup; models both cache `get` and the
keyed tables of the store model. -/
def lookupA {α β : Type} [DecidableEq α] : List (α × β) → α → Option β
  | [], _ => none
  | (a, b) :: rest, k => if a = k then some b else lookupA rest k

/-- Insert-or-replace for the association lists; prepending makes the new
binding shadow any old one under `lookupA`. -/
def insertA {α β : Type} [DecidableEq α] (l : List (α × β)) (k : α) (v : β) :
    List (α × β) :=
  (k, v) :: l

/-- One partition's RocksDB store: its key-value contents plus the keys on
which the external store's `get`/`put` fail (with the message the error
carries). -/
structure Store where
  entries : List (Bytes × Bytes)
  getFailures : List (Bytes × String)
  putFailures : List (Bytes × String)
deriving DecidableEq, Repr

def emptyStore : Store := ⟨[], [], []⟩

/-- The world outside the facade: one store per partition path, the partitions
whose `DBWithThreadMode::open` fails, and a counter of backend accesses
(each open, store get and store put increments it). -/
structure Env where
  stores : List (String × Store)
  openFailures : List (String × String)
  calls : Nat
deriving DecidableEq, Repr

/-- The store currently at partition `p` (empty if never opened/written). -/
def Env.storeOf (env : Env) (p : String) : Store :=
  (lookupA env.stores p).getD emptyStore

def Env.openFail (env : Env) (p : String) : Option String :=
  lookupA env.openFailures p

def Env.getFail (env : Env) (p : String) (key : Bytes) : Option String :=
  lookupA (env.storeOf p).getFailures key

def Env.putFail (env : Env) (p : String) (key : Bytes) : Option String :=
  lookupA (env.storeOf p).putFailures key

/-- The durable bytes stored under `key` in partition `p`. -/
def Env.entryAt (env : Env) (p : String) (key : Bytes) : Option Bytes :=
  lookupA (env.storeOf p).entries key

/-- `RocksDbFactory::get_db` / `RocksDb::new`: open the partition's store
(`create_if_missing` materialises an empty store), or fail with the open
error wrapped as `FromStore`. -/
def Env.getDb (env : Env) (p : String) : Except DataError Unit × Env :=
  match lookupA env.openFailures p with
  | some msg => (.error (.FromStore msg), { env with calls := env.calls + 1 })
  | none =>
    match lookupA env.stores p with
    | some _ => (.ok (), { env with calls := env.calls + 1 })
    | none =>
      (.ok (), { env with stores := insertA env.stores p emptyStore,
                          calls := env.calls + 1 })

/-- The external `store.get(key)` of partition `p`'s opened store. -/
def Env.storeGet (env : Env) (p : String) (key : Bytes) :
    Except String (Option Bytes) × Env :=
  match lookupA (env.storeOf p).getFailures key with
  | some msg => (.error msg, { env with calls := env.calls + 1 })
  | none => (.ok (lookupA (env.storeOf p).entries key),
             { env with calls := env.calls + 1 })

/-- The external `store.put(key, data)` of partition `p`'s opened store. -/
def Env.storePut (env : Env) (p : String) (key val : Bytes) :
    Except String Unit × Env :=
  match lookupA (env.storeOf p).putFailures key with
  | some msg => (.error msg, { env with calls := env.calls + 1 })
  | none =>
    (.ok (), { env with
      stores := insertA env.stores p
        { env.storeOf p with entries := insertA (env.storeOf p).entries key val },
      calls := env.calls + 1 })

/-- `impl Db for RocksDb — fn get_data` (lib.rs 191-197): pass the stored
bytes through untouched; `Ok(None)` becomes `DataNotFound`, a store error
becomes `FromStore`. -/
def RocksDb.get_data (env : Env) (p : String) (key : Bytes) :
    Except DataError Bytes × Env :=
  match env.storeGet p key with
  | (.error e, env1) => (.error (.FromStore e), env1)
  | (.ok none, env1) => (.error .DataNotFound, env1)
  | (.ok (some d), env1) => (.ok d, env1)

/-- `impl Db for RocksDb — fn save_data` (lib.rs 199-204). -/
def RocksDb.save_data (env : Env) (p : String) (key d : Bytes) :
    Except DataError Unit × Env :=
  match env.storePut p key d with
  | (.error e, env1) => (.error (.FromStore e), env1)
  | (.ok _, env1) => (.ok (), env1)

/-- `impl Db for RocksDb — fn get_token` (lib.rs 168-179), parametric in the
external `deserialize_rmp_to::<Token>` codec `de`. -/
def RocksDb.get_token {Token : Type} (de : Bytes → Option Token) (env : Env)
    (p : String) (key : Bytes) : Except DataError Token × Env :=
  match env.storeGet p key with
  | (.error e, env1) => (.error (.FromStore e), env1)
  | (.ok none, env1) => (.error .DataNotFound, env1)
  | (.ok (some d), env1) =>
    match de d with
    | none => (.error .DeserializationError, env1)
    | some t => (.ok t, env1)

/-- `impl Db for RocksDb — fn save_token` (lib.rs 181-189): acquire the
handle's write lock (poisoned check), serialize with the external
`serialize_to_bytes_rmp` codec `ser`, then store via `save_data`. -/
def RocksDb.save_token {Token : Type} (ser : Token → Option Bytes) (env : Env)
    (p : String) (key : Bytes) (h : Handle Token) :
    Except DataError Unit × Env :=
  if h.poisoned then (.error .Poisoned, env)
  else
    match ser h.value with
    | none => (.error .SerializationError, env)
    | some d => RocksDb.save_data env p key d

/-- Model of `std::time::Duration` (milliseconds are enough here). -/
structure Duration where
  millis : Nat
deriving DecidableEq, Repr

def Duration.from_secs (n : Nat) : Duration := ⟨n * 1000⟩

/-- Model of the moka `Cache::builder()` configuration being accumulated. -/
structure CacheBuilderModel where
  tti : Option Duration
deriving DecidableEq, Repr

def cacheBuilder : CacheBuilderModel := ⟨none⟩

def CacheBuilderModel.time_to_idle (b : CacheBuilderModel) (d : Duration) :
    CacheBuilderModel :=
  { b with tti := some d }

/-- The configuration a built cache carries (its idle-expiry policy). -/
structure CacheInstance where
  tti : Option Duration
deriving DecidableEq, Repr

def CacheBuilderModel.build (b : CacheBuilderModel) : CacheInstance := ⟨b.tti⟩

/-- Module-level `get_token_cache()` (lib.rs 102-107): builds the token cache
with a hardcoded 30-second time-to-idle. -/
def get_token_cache : CacheInstance :=
  (cacheBuilder.time_to_idle (Duration.from_secs 30)).build

/-- Module-level `get_data_cache()` (lib.rs 109-114): builds the data cache
with a hardcoded 30-second time-to-idle. -/
def get_data_cache : CacheInstance :=
  (cacheBuilder.time_to_idle (Duration.from_secs 30)).build

/-- The process-wide state the facade operates on: the two `OnceLock` caches
(contents plus the configuration they were built with), a fresh-allocation
counter for new `Arc<RwLock<_>>` handles, and the backend environment. -/
structure ProviderState (Token : Type) where
  tokenCache : List (Bytes × Handle Token)
  dataCache : List (Bytes × Handle Bytes)
  tokenCacheCfg : CacheInstance
  dataCacheCfg : CacheInstance
  nextId : Nat
  env : Env

/-- The state right after the `OnceLock`s initialise both caches via the
module-level builders, with empty contents. -/
def initState {Token : Type} (env : Env) : ProviderState Token :=
  ⟨[], [], get_token_cache, get_data_cache, 0, env⟩

/-- `SafeDataProvider::get_token` (lib.rs 12-19): cache hit returns the cached
handle unchanged; on a miss, load from the partition's backend, wrap in a
fresh handle, insert, then re-read the cache (`CacheError` if that misses). -/
def SafeDataProvider.get_token {Token : Type} (de : Bytes → Option Token)
    (s : ProviderState Token) (key : Bytes) (p : String) :
    Except DataError (Handle Token) × ProviderState Token :=
  match lookupA s.tokenCache key with
  | some h => (.ok h, s)
  | none =>
    match s.env.getDb p with
    | (.error e, env1) => (.error e, { s with env := env1 })
    | (.ok _, env1) =>
      match RocksDb.get_token de env1 p key with
      | (.error e, env2) => (.error e, { s with env := env2 })
      | (.ok t, env2) =>
        let h : Handle Token := ⟨s.nextId, t, false⟩
        let s1 : ProviderState Token :=
          { s with tokenCache := insertA s.tokenCache key h,
                   nextId := s.nextId + 1, env := env2 }
        match lookupA s1.tokenCache key with
        | none => (.error .CacheError, s1)
        | some h2 => (.ok h2, s1)

/-- `SafeDataProvider::save_token` (lib.rs 21-27): backend write first, and
only on success install the caller's handle itself into the token cache. -/
def SafeDataProvider.save_token {Token : Type} (ser : Token → Option Bytes)
    (s : ProviderState Token) (key : Bytes) (h : Handle Token) (p : String) :
    Except DataError Unit × ProviderState Token :=
  match s.env.getDb p with
  | (.error e, env1) => (.error e, { s with env := env1 })
  | (.ok _, env1) =>
    match RocksDb.save_token ser env1 p key h with
    | (.error e, env2) => (.error e, { s with env := env2 })
    | (.ok _, env2) =>
      (.ok (), { s with env := env2, tokenCache := insertA s.tokenCache key h })

/-- `SafeDataProvider::get_data` (lib.rs 29-38): same cache-aside shape as
`get_token` but for raw bytes, with no deserialization step. -/
def SafeDataProvider.get_data {Token : Type} (s : ProviderState Token)
    (key : Bytes) (p : String) :
    Except DataError (Handle Bytes) × ProviderState Token :=
  match lookupA s.dataCache key with
  | some h => (.ok h, s)
  | none =>
    match s.env.getDb p with
    | (.error e, env1) => (.error e, { s with env := env1 })
    | (.ok _, env1) =>
      match RocksDb.get_data env1 p key with
      | (.error e, env2) => (.error e, { s with env := env2 })
      | (.ok d, env2) =>
        let h : Handle Bytes := ⟨s.nextId, d, false⟩
        let s1 : ProviderState Token :=
          { s with dataCache := insertA s.dataCache key h,
                   nextId := s.nextId + 1, env := env2 }
        match lookupA s1.dataCache key with
        | none => (.error .CacheError, s1)
        | some h2 => (.ok h2, s1)

/-- `SafeDataProvider::save_data` (lib.rs 40-45): durable write first, then a
brand-new handle around the bytes goes into the data cache. -/
def SafeDataProvider.save_data {Token : Type} (s : ProviderState Token)
    (key : Bytes) (d : Bytes) (p : String) :
    Except DataError Unit × ProviderState Token :=
  match s.env.getDb p with
  | (.error e, env1) => (.error e, { s with env := env1 })
  | (.ok _, env1) =>
    match RocksDb.save_data env1 p key d with
    | (.error e, env2) => (.error e, { s with env := env2 })
    | (.ok _, env2) =>
      (.ok (), { s with env := env2,
                        dataCache := insertA s.dataCache key ⟨s.nextId, d, false⟩,
                        nextId := s.nextId + 1 })

/-- `SafeDataProvider::save_typed_data` (lib.rs 47-55): obtain the partition's
backend, serialize the value (failure is `SerializationError` before any
write), then write and cache exactly as `save_data` does. -/
def SafeDataProvider.save_typed_data {Token T : Type} (ser : T → Option Bytes)
    (s : ProviderState Token) (key : Bytes) (v : T) (p : String) :
    Except DataError Unit × ProviderState Token :=
  match s.env.getDb p with
  | (.error e, env1) => (.error e, { s with env := env1 })
  | (.ok _, env1) =>
    match ser v with
    | none => (.error .SerializationError, { s with env := env1 })
    | some d =>
      match RocksDb.save_data env1 p key d with
      | (.error e, env2) => (.error e, { s with env := env2 })
      | (.ok _, env2) =>
        (.ok (), { s with env := env2,
                          dataCache := insertA s.dataCache key ⟨s.nextId, d, false⟩,
                          nextId := s.nextId + 1 })

/-- `SafeDataProvider::save_locked_data` (lib.rs 57-68): acquire the handle's
write lock (poisoned check), serialize the locked value, persist, then cache
the serialized bytes under a brand-new handle. -/
def SafeDataProvider.save_locked_data {Token T : Type} (ser : T → Option Bytes)
    (s : ProviderState Token) (key : Bytes) (h : Handle T) (p : String) :
    Except DataError Unit × ProviderState Token :=
  match s.env.getDb p with
  | (.error e, env1) => (.error e, { s with env := env1 })
  | (.ok _, env1) =>
    if h.poisoned then (.error .Poisoned, { s with env := env1 })
    else
      match ser h.value with
      | none => (.error .SerializationError, { s with env := env1 })
      | some d =>
        match RocksDb.save_data env1 p key d with
        | (.error e, env2) => (.error e, { s with env := env2 })
        | (.ok _, env2) =>
          (.ok (), { s with env := env2,
                            dataCache := insertA s.dataCache key ⟨s.nextId, d, false⟩,
                            nextId := s.nextId + 1 })

/-! ### Basic lemmas about the association-list model -/

theorem lookupA_insertA_self {α β : Type} [DecidableEq α] (l : List (α × β))
    (k : α) (v : β) : lookupA (insertA l k v) k = some v := by
  simp [lookupA, insertA]

theorem lookupA_insertA_ne {α β : Type} [DecidableEq α] (l : List (α × β))
    (k k' : α) (v : β) (h : k ≠ k') :
    lookupA (insertA l k v) k' = lookupA l k' := by
  simp [lookupA, insertA, h]

/-! ### Lemmas about the backend environment -/

theorem Env.getDb_fst_ok (env : Env) (p : String) (h : env.openFail p = none) :
    (env.getDb p).1 = .ok () := by
  rw [Env.openFail] at h
  unfold Env.getDb
  rcases hs : lookupA env.stores p with _ | st <;> simp [h, hs]

theorem Env.getDb_fst_err (env : Env) (p : String) (m : String)
    (h : env.openFail p = some m) :
    (env.getDb p).1 = .error (.FromStore m) := by
  rw [Env.openFail] at h
  unfold Env.getDb
  simp [h]

theorem Env.getDb_storeOf (env : Env) (p q : String) :
    ((env.getDb p).2).storeOf q = env.storeOf q := by
  unfold Env.getDb
  rcases ho : lookupA env.openFailures p with _ | m
  · rcases hs : lookupA env.stores p with _ | st
    · by_cases hpq : p = q
      · subst hpq
        simp [ho, hs, Env.storeOf, lookupA_insertA_self]
      · simp [ho, hs, Env.storeOf, lookupA_insertA_ne _ _ _ _ hpq]
    · simp [ho, hs, Env.storeOf]
  · simp [ho, Env.storeOf]

theorem Env.getDb_openFail (env : Env) (p q : String) :
    ((env.getDb p).2).openFail q = env.openFail q := by
  unfold Env.getDb
  rcases ho : lookupA env.openFailures p with _ | m
  · rcases hs : lookupA env.stores p with _ | st <;> simp [ho, hs, Env.openFail]
  · simp [ho, Env.openFail]

theorem Env.getDb_calls (env : Env) (p : String) :
    ((env.getDb p).2).calls = env.calls + 1 := by
  unfold Env.getDb
  rcases ho : lookupA env.openFailures p with _ | m
  · rcases hs : lookupA env.stores p with _ | st <;> simp [ho, hs]
  · simp [ho]

theorem Env.getDb_entryAt (env : Env) (p q : String) (k : Bytes) :
    ((env.getDb p).2).entryAt q k = env.entryAt q k := by
  unfold Env.entryAt
  rw [Env.getDb_storeOf]

theorem Env.getDb_getFail (env : Env) (p q : String) (k : Bytes) :
    ((env.getDb p).2).getFail q k = env.getFail q k := by
  unfold Env.getFail
  rw [Env.getDb_storeOf]

theorem Env.getDb_putFail (env : Env) (p q : String) (k : Bytes) :
    ((env.getDb p).2).putFail q k = env.putFail q k := by
  unfold Env.putFail
  rw [Env.getDb_storeOf]

theorem Env.storeGet_fst_ok (env : Env) (p : String) (k : Bytes)
    (h : env.getFail p k = none) :
    (env.storeGet p k).1 = .ok (env.entryAt p k) := by
  rw [Env.getFail] at h
  unfold Env.storeGet
  simp [h, Env.entryAt]

theorem Env.storeGet_fst_err (env : Env) (p : String) (k : Bytes) (m : String)
    (h : env.getFail p k = some m) :
    (env.storeGet p k).1 = .error m := by
  rw [Env.getFail] at h
  unfold Env.storeGet
  simp [h]

theorem Env.storeGet_snd (env : Env) (p : String) (k : Bytes) :
    (env.storeGet p k).2 = { env with calls := env.calls + 1 } := by
  unfold Env.storeGet
  rcases h : lookupA (env.storeOf p).getFailures k with _ | m <;> simp [h]

theorem Env.storePut_fst_ok (env : Env) (p : String) (k v : Bytes)
    (h : env.putFail p k = none) :
    (env.storePut p k v).1 = .ok () := by
  rw [Env.putFail] at h
  unfold Env.storePut
  simp [h]

theorem Env.storePut_fst_err (env : Env) (p : String) (k v : Bytes) (m : String)
    (h : env.putFail p k = some m) :
    (env.storePut p k v).1 = .error m := by
  rw [Env.putFail] at h
  unfold Env.storePut
  simp [h]

theorem Env.storePut_snd_err (env : Env) (p : String) (k v : Bytes) (m : String)
    (h : env.putFail p k = some m) :
    (env.storePut p k v).2 = { env with calls := env.calls + 1 } := by
  rw [Env.putFail] at h
  unfold Env.storePut
  simp [h]

theorem Env.storePut_snd_ok (env : Env) (p : String) (k v : Bytes)
    (h : env.putFail p k = none) :
    (env.storePut p k v).2 =
      { env with
        stores := insertA env.stores p
          { env.storeOf p with entries := insertA (env.storeOf p).entries k v },
        calls := env.calls + 1 } := by
  rw [Env.putFail] at h
  unfold Env.storePut
  simp [h]

theorem Env.storePut_storeOf_ne (env : Env) (p q : String) (k v : Bytes)
    (hq : p ≠ q) : ((env.storePut p k v).2).storeOf q = env.storeOf q := by
  unfold Env.storePut
  rcases h : lookupA (env.storeOf p).putFailures k with _ | m
  · simp [h, Env.storeOf, lookupA_insertA_ne _ _ _ _ hq]
  · simp [h, Env.storeOf]

theorem Env.storePut_storeOf_self (env : Env) (p : String) (k v : Bytes)
    (h : env.putFail p k = none) :
    ((env.storePut p k v).2).storeOf p =
      { env.storeOf p with entries := insertA (env.storeOf p).entries k v } := by
  rw [Env.storePut_snd_ok env p k v h]
  simp [Env.storeOf, lookupA_insertA_self]

theorem Env.storePut_entryAt_self (env : Env) (p : String) (k v : Bytes)
    (h : env.putFail p k = none) :
    ((env.storePut p k v).2).entryAt p k = some v := by
  unfold Env.entryAt
  rw [Env.storePut_storeOf_self env p k v h]
  simp [lookupA_insertA_self]

theorem Env.storePut_openFail (env : Env) (p q : String) (k v : Bytes) :
    ((env.storePut p k v).2).openFail q = env.openFail q := by
  unfold Env.storePut
  rcases h : lookupA (env.storeOf p).putFailures k with _ | m <;>
    simp [h, Env.openFail]

theorem Env.storePut_getFail (env : Env) (p q : String) (k k' v : Bytes) :
    ((env.storePut p k v).2).getFail q k' = env.getFail q k' := by
  by_cases hq : p = q
  · subst hq
    unfold Env.getFail
    rcases h : lookupA (env.storeOf p).putFailures k with _ | m
    · rw [Env.storePut_storeOf_self env p k v h]
    · rw [show ((env.storePut p k v).2).storeOf p = env.storeOf p by
        rw [Env.storePut_snd_err env p k v _ h]
        rfl]
  · unfold Env.getFail
    rw [Env.storePut_storeOf_ne env p q k v hq]

theorem Env.storePut_putFail (env : Env) (p q : String) (k k' v : Bytes) :
    ((env.storePut p k v).2).putFail q k' = env.putFail q k' := by
  by_cases hq : p = q
  · subst hq
    unfold Env.putFail
    rcases h : lookupA (env.storeOf p).putFailures k with _ | m
    · rw [Env.storePut_storeOf_self env p k v h]
    · rw [show ((env.storePut p k v).2).storeOf p = env.storeOf p by
        rw [Env.storePut_snd_err env p k v _ h]
        rfl]
  · unfold Env.putFail
    rw [Env.storePut_storeOf_ne env p q k v hq]

theorem Env.storePut_entryAt_ne_key (env : Env) (p : String) (k k' v : Bytes)
    (hk : k ≠ k') :
    ((env.storePut p k v).2).entryAt p k' = env.entryAt p k' := by
  unfold Env.entryAt
  rcases h : lookupA (env.storeOf p).putFailures k with _ | m
  · rw [Env.storePut_storeOf_self env p k v h]
    simp [lookupA_insertA_ne _ _ _ _ hk]
  · rw [show ((env.storePut p k v).2).storeOf p = env.storeOf p by
      rw [Env.storePut_snd_err env p k v _ h]
      rfl]

theorem Env.storePut_entryAt_ne_p (env : Env) (p q : String) (k k' v : Bytes)
    (hq : p ≠ q) :
    ((env.storePut p k v).2).entryAt q k' = env.entryAt q k' := by
  unfold Env.entryAt
  rw [Env.storePut_storeOf_ne env p q k v hq]

/-! ### Lemmas about the RocksDb backend layer -/

theorem RocksDb.get_data_found (env : Env) (p : String) (k d : Bytes)
    (h1 : env.getFail p k = none) (h2 : env.entryAt p k = some d) :
    RocksDb.get_data env p k = (.ok d, { env with calls := env.calls + 1 }) := by
  unfold RocksDb.get_data
  rcases hg : env.storeGet p k with ⟨r, env1⟩
  have hf : r = .ok (env.entryAt p k) := by
    rw [← Env.storeGet_fst_ok env p k h1, hg]
  have hs : env1 = { env with calls := env.calls + 1 } := by
    rw [← Env.storeGet_snd env p k, hg]
  subst hf hs
  simp [h2]

theorem RocksDb.get_data_notFound (env : Env) (p : String) (k : Bytes)
    (h1 : env.getFail p k = none) (h2 : env.entryAt p k = none) :
    RocksDb.get_data env p k =
      (.error .DataNotFound, { env with calls := env.calls + 1 }) := by
  unfold RocksDb.get_data
  rcases hg : env.storeGet p k with ⟨r, env1⟩
  have hf : r = .ok (env.entryAt p k) := by
    rw [← Env.storeGet_fst_ok env p k h1, hg]
  have hs : env1 = { env with calls := env.calls + 1 } := by
    rw [← Env.storeGet_snd env p k, hg]
  subst hf hs
  simp [h2]

theorem RocksDb.save_data_ok (env : Env) (p : String) (k d : Bytes)
    (h : env.putFail p k = none) :
    RocksDb.save_data env p k d = (.ok (), (env.storePut p k d).2) := by
  unfold RocksDb.save_data
  rcases hp : env.storePut p k d with ⟨r, env1⟩
  have hf : r = .ok () := by
    rw [← Env.storePut_fst_ok env p k d h, hp]
  subst hf
  simp [← hp]

theorem RocksDb.save_data_err (env : Env) (p : String) (k d : Bytes) (m : String)
    (h : env.putFail p k = some m) :
    RocksDb.save_data env p k d =
      (.error (.FromStore m), { env with calls := env.calls + 1 }) := by
  unfold RocksDb.save_data
  rcases hp : env.storePut p k d with ⟨r, env1⟩
  have hf : r = .error m := by
    rw [← Env.storePut_fst_err env p k d m h, hp]
  have hs : env1 = { env with calls := env.calls + 1 } := by
    rw [← Env.storePut_snd_err env p k d m h, hp]
  subst hf hs
  simp

theorem RocksDb.get_token_found {Token : Type} (de : Bytes → Option Token)
    (env : Env) (p : String) (k d : Bytes) (t : Token)
    (h1 : env.getFail p k = none) (h2 : env.entryAt p k = some d)
    (h3 : de d = some t) :
    RocksDb.get_token de env p k = (.ok t, { env with calls := env.calls + 1 }) := by
  unfold RocksDb.get_token
  rcases hg : env.storeGet p k with ⟨r, env1⟩
  have hf : r = .ok (env.entryAt p k) := by
    rw [← Env.storeGet_fst_ok env p k h1, hg]
  have hs : env1 = { env with calls := env.calls + 1 } := by
    rw [← Env.storeGet_snd env p k, hg]
  subst hf hs
  simp [h2, h3]

theorem RocksDb.get_token_notFound {Token : Type} (de : Bytes → Option Token)
    (env : Env) (p : String) (k : Bytes)
    (h1 : env.getFail p k = none) (h2 : env.entryAt p k = none) :
    RocksDb.get_token de env p k =
      (.error .DataNotFound, { env with calls := env.calls + 1 }) := by
  unfold RocksDb.get_token
  rcases hg : env.storeGet p k with ⟨r, env1⟩
  have hf : r = .ok (env.entryAt p k) := by
    rw [← Env.storeGet_fst_ok env p k h1, hg]
  have hs : env1 = { env with calls := env.calls + 1 } := by
    rw [← Env.storeGet_snd env p k, hg]
  subst hf hs
  simp [h2]

theorem RocksDb.get_token_deserErr {Token : Type} (de : Bytes → Option Token)
    (env : Env) (p : String) (k d : Bytes)
    (h1 : env.getFail p k = none) (h2 : env.entryAt p k = some d)
    (h3 : de d = none) :
    RocksDb.get_token de env p k =
      (.error .DeserializationError, { env with calls := env.calls + 1 }) := by
  unfold RocksDb.get_token
  rcases hg : env.storeGet p k with ⟨r, env1⟩
  have hf : r = .ok (env.entryAt p k) := by
    rw [← Env.storeGet_fst_ok env p k h1, hg]
  have hs : env1 = { env with calls := env.calls + 1 } := by
    rw [← Env.storeGet_snd env p k, hg]
  subst hf hs
  simp [h2, h3]

theorem RocksDb.get_token_storeErr {Token : Type} (de : Bytes → Option Token)
    (env : Env) (p : String) (k : Bytes) (m : String)
    (h : env.getFail p k = some m) :
    RocksDb.get_token de env p k =
      (.error (.FromStore m), { env with calls := env.calls + 1 }) := by
  unfold RocksDb.get_token
  rcases hg : env.storeGet p k with ⟨r, env1⟩
  have hf : r = .error m := by
    rw [← Env.storeGet_fst_err env p k m h, hg]
  have hs : env1 = { env with calls := env.calls + 1 } := by
    rw [← Env.storeGet_snd env p k, hg]
  subst hf hs
  simp

theorem RocksDb.save_token_poisoned {Token : Type} (ser : Token → Option Bytes)
    (env : Env) (p : String) (k : Bytes) (h : Handle Token)
    (hp : h.poisoned = true) :
    RocksDb.save_token ser env p k h = (.error .Poisoned, env) := by
  unfold RocksDb.save_token
  simp [hp]

theorem RocksDb.save_token_serErr {Token : Type} (ser : Token → Option Bytes)
    (env : Env) (p : String) (k : Bytes) (h : Handle Token)
    (hp : h.poisoned = false) (hs : ser h.value = none) :
    RocksDb.save_token ser env p k h = (.error .SerializationError, env) := by
  unfold RocksDb.save_token
  simp [hp, hs]

theorem RocksDb.save_token_ok {Token : Type} (ser : Token → Option Bytes)
    (env : Env) (p : String) (k d : Bytes) (h : Handle Token)
    (hp : h.poisoned = false) (hs : ser h.value = some d)
    (hput : env.putFail p k = none) :
    RocksDb.save_token ser env p k h = (.ok (), (env.storePut p k d).2) := by
  unfold RocksDb.save_token
  simp [hp, hs, RocksDb.save_data_ok env p k d hput]

/-! ### Conditioned equations for the facade operations -/

theorem SafeDataProvider.get_data_hit {Token : Type} (s : ProviderState Token)
    (key : Bytes) (p : String) (h : Handle Bytes)
    (hh : lookupA s.dataCache key = some h) :
    SafeDataProvider.get_data s key p = (.ok h, s) := by
  unfold SafeDataProvider.get_data
  simp [hh]

theorem SafeDataProvider.get_data_openErr {Token : Type}
    (s : ProviderState Token) (key : Bytes) (p : String) (m : String)
    (hm : lookupA s.dataCache key = none) (ho : s.env.openFail p = some m) :
    SafeDataProvider.get_data s key p =
      (.error (.FromStore m), { s with env := (s.env.getDb p).2 }) := by
  unfold SafeDataProvider.get_data
  rcases hgd : s.env.getDb p with ⟨r1, env1⟩
  have hf : r1 = .error (.FromStore m) := by
    rw [← Env.getDb_fst_err s.env p m ho, hgd]
  subst hf
  simp [hm, hgd]

theorem SafeDataProvider.get_data_miss_found {Token : Type}
    (s : ProviderState Token) (key : Bytes) (p : String) (d : Bytes)
    (hm : lookupA s.dataCache key = none) (ho : s.env.openFail p = none)
    (hg : s.env.getFail p key = none) (he : s.env.entryAt p key = some d) :
    SafeDataProvider.get_data s key p =
      (.ok ⟨s.nextId, d, false⟩,
       { s with dataCache := insertA s.dataCache key ⟨s.nextId, d, false⟩,
                nextId := s.nextId + 1,
                env := { (s.env.getDb p).2 with
                         calls := (s.env.getDb p).2.calls + 1 } }) := by
  unfold SafeDataProvider.get_data
  rcases hgd : s.env.getDb p with ⟨r1, env1⟩
  have hf : r1 = .ok () := by
    rw [← Env.getDb_fst_ok s.env p ho, hgd]
  subst hf
  have hg1 : env1.getFail p key = none := by
    rw [show env1 = (s.env.getDb p).2 by rw [hgd], Env.getDb_getFail]
    exact hg
  have he1 : env1.entryAt p key = some d := by
    rw [show env1 = (s.env.getDb p).2 by rw [hgd], Env.getDb_entryAt]
    exact he
  simp [hm, hgd, RocksDb.get_data_found env1 p key d hg1 he1,
        lookupA_insertA_self]

theorem SafeDataProvider.get_data_miss_notFound {Token : Type}
    (s : ProviderState Token) (key : Bytes) (p : String)
    (hm : lookupA s.dataCache key = none) (ho : s.env.openFail p = none)
    (hg : s.env.getFail p key = none) (he : s.env.entryAt p key = none) :
    SafeDataProvider.get_data s key p =
      (.error .DataNotFound,
       { s with env := { (s.env.getDb p).2 with
                         calls := (s.env.getDb p).2.calls + 1 } }) := by
  unfold SafeDataProvider.get_data
  rcases hgd : s.env.getDb p with ⟨r1, env1⟩
  have hf : r1 = .ok () := by
    rw [← Env.getDb_fst_ok s.env p ho, hgd]
  subst hf
  have hg1 : env1.getFail p key = none := by
    rw [show env1 = (s.env.getDb p).2 by rw [hgd], Env.getDb_getFail]
    exact hg
  have he1 : env1.entryAt p key = none := by
    rw [show env1 = (s.env.getDb p).2 by rw [hgd], Env.getDb_entryAt]
    exact he
  simp [hm, hgd, RocksDb.get_data_notFound env1 p key hg1 he1]

theorem SafeDataProvider.save_data_ok_eq {Token : Type}
    (s : ProviderState Token) (key d : Bytes) (p : String)
    (ho : s.env.openFail p = none) (hp : s.env.putFail p key = none) :
    SafeDataProvider.save_data s key d p =
      (.ok (),
       { s with env := ((s.env.getDb p).2.storePut p key d).2,
                dataCache := insertA s.dataCache key ⟨s.nextId, d, false⟩,
                nextId := s.nextId + 1 }) := by
  unfold SafeDataProvider.save_data
  rcases hgd : s.env.getDb p with ⟨r1, env1⟩
  have hf : r1 = .ok () := by
    rw [← Env.getDb_fst_ok s.env p ho, hgd]
  subst hf
  have hp1 : env1.putFail p key = none := by
    rw [show env1 = (s.env.getDb p).2 by rw [hgd], Env.getDb_putFail]
    exact hp
  simp [hgd, RocksDb.save_data_ok env1 p key d hp1]

theorem SafeDataProvider.save_data_putErr_eq {Token : Type}
    (s : ProviderState Token) (key d : Bytes) (p : String) (m : String)
    (ho : s.env.openFail p = none) (hp : s.env.putFail p key = some m) :
    SafeDataProvider.save_data s key d p =
      (.error (.FromStore m),
       { s with env := { (s.env.getDb p).2 with
                         calls := (s.env.getDb p).2.calls + 1 } }) := by
  unfold SafeDataProvider.save_data
  rcases hgd : s.env.getDb p with ⟨r1, env1⟩
  have hf : r1 = .ok () := by
    rw [← Env.getDb_fst_ok s.env p ho, hgd]
  subst hf
  have hp1 : env1.putFail p key = some m := by
    rw [show env1 = (s.env.getDb p).2 by rw [hgd], Env.getDb_putFail]
    exact hp
  simp [hgd, RocksDb.save_data_err env1 p key d m hp1]

theorem SafeDataProvider.save_data_openErr_eq {Token : Type}
    (s : ProviderState Token) (key d : Bytes) (p : String) (m : String)
    (ho : s.env.openFail p = some m) :
    SafeDataProvider.save_data s key d p =
      (.error (.FromStore m), { s with env := (s.env.getDb p).2 }) := by
  unfold SafeDataProvider.save_data
  rcases hgd : s.env.getDb p with ⟨r1, env1⟩
  have hf : r1 = .error (.FromStore m) := by
    rw [← Env.getDb_fst_err s.env p m ho, hgd]
  subst hf
  simp [hgd]

theorem SafeDataProvider.get_token_hit {Token : Type} (de : Bytes → Option Token)
    (s : ProviderState Token) (key : Bytes) (p : String) (h : Handle Token)
    (hh : lookupA s.tokenCache key = some h) :
    SafeDataProvider.get_token de s key p = (.ok h, s) := by
  unfold SafeDataProvider.get_token
  simp [hh]

theorem SafeDataProvider.get_token_openErr {Token : Type}
    (de : Bytes → Option Token) (s : ProviderState Token) (key : Bytes)
    (p : String) (m : String)
    (hm : lookupA s.tokenCache key = none) (ho : s.env.openFail p = some m) :
    SafeDataProvider.get_token de s key p =
      (.error (.FromStore m), { s with env := (s.env.getDb p).2 }) := by
  unfold SafeDataProvider.get_token
  rcases hgd : s.env.getDb p with ⟨r1, env1⟩
  have hf : r1 = .error (.FromStore m) := by
    rw [← Env.getDb_fst_err s.env p m ho, hgd]
  subst hf
  simp [hm, hgd]

theorem SafeDataProvider.get_token_miss_found {Token : Type}
    (de : Bytes → Option Token) (s : ProviderState Token) (key : Bytes)
    (p : String) (d : Bytes) (t : Token)
    (hm : lookupA s.tokenCache key = none) (ho : s.env.openFail p = none)
    (hg : s.env.getFail p key = none) (he : s.env.entryAt p key = some d)
    (hd : de d = some t) :
    SafeDataProvider.get_token de s key p =
      (.ok ⟨s.nextId, t, false⟩,
       { s with tokenCache := insertA s.tokenCache key ⟨s.nextId, t, false⟩,
                nextId := s.nextId + 1,
                env := { (s.env.getDb p).2 with
                         calls := (s.env.getDb p).2.calls + 1 } }) := by
  unfold SafeDataProvider.get_token
  rcases hgd : s.env.getDb p with ⟨r1, env1⟩
  have hf : r1 = .ok () := by
    rw [← Env.getDb_fst_ok s.env p ho, hgd]
  subst hf
  have hg1 : env1.getFail p key = none := by
    rw [show env1 = (s.env.getDb p).2 by rw [hgd], Env.getDb_getFail]
    exact hg
  have he1 : env1.entryAt p key = some d := by
    rw [show env1 = (s.env.getDb p).2 by rw [hgd], Env.getDb_entryAt]
    exact he
  simp [hm, hgd, RocksDb.get_token_found de env1 p key d t hg1 he1 hd,
        lookupA_insertA_self]

theorem SafeDataProvider.get_token_miss_notFound {Token : Type}
    (de : Bytes → Option Token) (s : ProviderState Token) (key : Bytes)
    (p : String)
    (hm : lookupA s.tokenCache key = none) (ho : s.env.openFail p = none)
    (hg : s.env.getFail p key = none) (he : s.env.entryAt p key = none) :
    SafeDataProvider.get_token de s key p =
      (.error .DataNotFound,
       { s with env := { (s.env.getDb p).2 with
                         calls := (s.env.getDb p).2.calls + 1 } }) := by
  unfold SafeDataProvider.get_token
  rcases hgd : s.env.getDb p with ⟨r1, env1⟩
  have hf : r1 = .ok () := by
    rw [← Env.getDb_fst_ok s.env p ho, hgd]
  subst hf
  have hg1 : env1.getFail p key = none := by
    rw [show env1 = (s.env.getDb p).2 by rw [hgd], Env.getDb_getFail]
    exact hg
  have he1 : env1.entryAt p key = none := by
    rw [show env1 = (s.env.getDb p).2 by rw [hgd], Env.getDb_entryAt]
    exact he
  simp [hm, hgd, RocksDb.get_token_notFound de env1 p key hg1 he1]

theorem SafeDataProvider.get_token_miss_deserErr {Token : Type}
    (de : Bytes → Option Token) (s : ProviderState Token) (key : Bytes)
    (p : String) (d : Bytes)
    (hm : lookupA s.tokenCache key = none) (ho : s.env.openFail p = none)
    (hg : s.env.getFail p key = none) (he : s.env.entryAt p key = some d)
    (hd : de d = none) :
    SafeDataProvider.get_token de s key p =
      (.error .DeserializationError,
       { s with env := { (s.env.getDb p).2 with
                         calls := (s.env.getDb p).2.calls + 1 } }) := by
  unfold SafeDataProvider.get_token
  rcases hgd : s.env.getDb p with ⟨r1, env1⟩
  have hf : r1 = .ok () := by
    rw [← Env.getDb_fst_ok s.env p ho, hgd]
  subst hf
  have hg1 : env1.getFail p key = none := by
    rw [show env1 = (s.env.getDb p).2 by rw [hgd], Env.getDb_getFail]
    exact hg
  have he1 : env1.entryAt p key = some d := by
    rw [show env1 = (s.env.getDb p).2 by rw [hgd], Env.getDb_entryAt]
    exact he
  simp [hm, hgd, RocksDb.get_token_deserErr de env1 p key d hg1 he1 hd]

theorem SafeDataProvider.get_token_miss_storeErr {Token : Type}
    (de : Bytes → Option Token) (s : ProviderState Token) (key : Bytes)
    (p : String) (m : String)
    (hm : lookupA s.tokenCache key = none) (ho : s.env.openFail p = none)
    (hg : s.env.getFail p key = some m) :
    SafeDataProvider.get_token de s key p =
      (.error (.FromStore m),
       { s with env := { (s.env.getDb p).2 with
                         calls := (s.env.getDb p).2.calls + 1 } }) := by
  unfold SafeDataProvider.get_token
  rcases hgd : s.env.getDb p with ⟨r1, env1⟩
  have hf : r1 = .ok () := by
    rw [← Env.getDb_fst_ok s.env p ho, hgd]
  subst hf
  have hg1 : env1.getFail p key = some m := by
    rw [show env1 = (s.env.getDb p).2 by rw [hgd], Env.getDb_getFail]
    exact hg
  simp [hm, hgd, RocksDb.get_token_storeErr de env1 p key m hg1]

theorem SafeDataProvider.save_token_openErr {Token : Type}
    (ser : Token → Option Bytes) (s : ProviderState Token) (key : Bytes)
    (h : Handle Token) (p : String) (m : String)
    (ho : s.env.openFail p = some m) :
    SafeDataProvider.save_token ser s key h p =
      (.error (.FromStore m), { s with env := (s.env.getDb p).2 }) := by
  unfold SafeDataProvider.save_token
  rcases hgd : s.env.getDb p with ⟨r1, env1⟩
  have hf : r1 = .error (.FromStore m) := by
    rw [← Env.getDb_fst_err s.env p m ho, hgd]
  subst hf
  simp [hgd]

theorem SafeDataProvider.save_token_poisoned_eq {Token : Type}
    (ser : Token → Option Bytes) (s : ProviderState Token) (key : Bytes)
    (h : Handle Token) (p : String)
    (ho : s.env.openFail p = none) (hp : h.poisoned = true) :
    SafeDataProvider.save_token ser s key h p =
      (.error .Poisoned, { s with env := (s.env.getDb p).2 }) := by
  unfold SafeDataProvider.save_token
  rcases hgd : s.env.getDb p with ⟨r1, env1⟩
  have hf : r1 = .ok () := by
    rw [← Env.getDb_fst_ok s.env p ho, hgd]
  subst hf
  simp [hgd, RocksDb.save_token_poisoned ser env1 p key h hp]

theorem SafeDataProvider.save_token_serErr_eq {Token : Type}
    (ser : Token → Option Bytes) (s : ProviderState Token) (key : Bytes)
    (h : Handle Token) (p : String)
    (ho : s.env.openFail p = none) (hp : h.poisoned = false)
    (hs : ser h.value = none) :
    SafeDataProvider.save_token ser s key h p =
      (.error .SerializationError, { s with env := (s.env.getDb p).2 }) := by
  unfold SafeDataProvider.save_token
  rcases hgd : s.env.getDb p with ⟨r1, env1⟩
  have hf : r1 = .ok () := by
    rw [← Env.getDb_fst_ok s.env p ho, hgd]
  subst hf
  simp [hgd, RocksDb.save_token_serErr ser env1 p key h hp hs]

theorem SafeDataProvider.save_token_ok_eq {Token : Type}
    (ser : Token → Option Bytes) (s : ProviderState Token) (key d : Bytes)
    (h : Handle Token) (p : String)
    (ho : s.env.openFail p = none) (hp : h.poisoned = false)
    (hs : ser h.value = some d) (hput : s.env.putFail p key = none) :
    SafeDataProvider.save_token ser s key h p =
      (.ok (),
       { s with env := ((s.env.getDb p).2.storePut p key d).2,
                tokenCache := insertA s.tokenCache key h }) := by
  unfold SafeDataProvider.save_token
  rcases hgd : s.env.getDb p with ⟨r1, env1⟩
  have hf : r1 = .ok () := by
    rw [← Env.getDb_fst_ok s.env p ho, hgd]
  subst hf
  have hput1 : env1.putFail p key = none := by
    rw [show env1 = (s.env.getDb p).2 by rw [hgd], Env.getDb_putFail]
    exact hput
  simp [hgd, RocksDb.save_token_ok ser env1 p key d h hp hs hput1]

theorem SafeDataProvider.save_typed_data_ser_ok {Token T : Type}
    (ser : T → Option Bytes) (s : ProviderState Token) (key : Bytes) (v : T)
    (d : Bytes) (p : String) (hs : ser v = some d) :
    SafeDataProvider.save_typed_data ser s key v p =
      SafeDataProvider.save_data s key d p := by
  unfold SafeDataProvider.save_typed_data SafeDataProvider.save_data
  rcases hgd : s.env.getDb p with ⟨r1, env1⟩
  cases r1 <;> simp [hs]

theorem SafeDataProvider.save_typed_data_ser_none {Token T : Type}
    (ser : T → Option Bytes) (s : ProviderState Token) (key : Bytes) (v : T)
    (p : String) (ho : s.env.openFail p = none) (hs : ser v = none) :
    SafeDataProvider.save_typed_data ser s key v p =
      (.error .SerializationError, { s with env := (s.env.getDb p).2 }) := by
  unfold SafeDataProvider.save_typed_data
  rcases hgd : s.env.getDb p with ⟨r1, env1⟩
  have hf : r1 = .ok () := by
    rw [← Env.getDb_fst_ok s.env p ho, hgd]
  subst hf
  simp [hgd, hs]

theorem SafeDataProvider.save_typed_data_openErr {Token T : Type}
    (ser : T → Option Bytes) (s : ProviderState Token) (key : Bytes) (v : T)
    (p : String) (m : String) (ho : s.env.openFail p = some m) :
    SafeDataProvider.save_typed_data ser s key v p =
      (.error (.FromStore m), { s with env := (s.env.getDb p).2 }) := by
  unfold SafeDataProvider.save_typed_data
  rcases hgd : s.env.getDb p with ⟨r1, env1⟩
  have hf : r1 = .error (.FromStore m) := by
    rw [← Env.getDb_fst_err s.env p m ho, hgd]
  subst hf
  simp [hgd]

theorem SafeDataProvider.save_locked_data_openErr {Token T : Type}
    (ser : T → Option Bytes) (s : ProviderState Token) (key : Bytes)
    (h : Handle T) (p : String) (m : String) (ho : s.env.openFail p = some m) :
    SafeDataProvider.save_locked_data ser s key h p =
      (.error (.FromStore m), { s with env := (s.env.getDb p).2 }) := by
  unfold SafeDataProvider.save_locked_data
  rcases hgd : s.env.getDb p with ⟨r1, env1⟩
  have hf : r1 = .error (.FromStore m) := by
    rw [← Env.getDb_fst_err s.env p m ho, hgd]
  subst hf
  simp [hgd]

theorem SafeDataProvider.save_locked_data_poisoned_eq {Token T : Type}
    (ser : T → Option Bytes) (s : ProviderState Token) (key : Bytes)
    (h : Handle T) (p : String)
    (ho : s.env.openFail p = none) (hp : h.poisoned = true) :
    SafeDataProvider.save_locked_data ser s key h p =
      (.error .Poisoned, { s with env := (s.env.getDb p).2 }) := by
  unfold SafeDataProvider.save_locked_data
  rcases hgd : s.env.getDb p with ⟨r1, env1⟩
  have hf : r1 = .ok () := by
    rw [← Env.getDb_fst_ok s.env p ho, hgd]
  subst hf
  simp [hgd, hp]

theorem RocksDb.save_token_putErr {Token : Type} (ser : Token → Option Bytes)
    (env : Env) (p : String) (k d : Bytes) (h : Handle Token) (m : String)
    (hp : h.poisoned = false) (hs : ser h.value = some d)
    (hput : env.putFail p k = some m) :
    RocksDb.save_token ser env p k h =
      (.error (.FromStore m), { env with calls := env.calls + 1 }) := by
  unfold RocksDb.save_token
  simp [hp, hs, RocksDb.save_data_err env p k d m hput]

theorem SafeDataProvider.save_token_putErr_eq {Token : Type}
    (ser : Token → Option Bytes) (s : ProviderState Token) (key d : Bytes)
    (h : Handle Token) (p : String) (m : String)
    (ho : s.env.openFail p = none) (hp : h.poisoned = false)
    (hs : ser h.value = some d) (hput : s.env.putFail p key = some m) :
    SafeDataProvider.save_token ser s key h p =
      (.error (.FromStore m),
       { s with env := { (s.env.getDb p).2 with
                         calls := (s.env.getDb p).2.calls + 1 } }) := by
  unfold SafeDataProvider.save_token
  rcases hgd : s.env.getDb p with ⟨r1, env1⟩
  have hf : r1 = .ok () := by
    rw [← Env.getDb_fst_ok s.env p ho, hgd]
  subst hf
  have hput1 : env1.putFail p key = some m := by
    rw [show env1 = (s.env.getDb p).2 by rw [hgd], Env.getDb_putFail]
    exact hput
  simp [hgd, RocksDb.save_token_putErr ser env1 p key d h m hp hs hput1]

theorem Env.entryAt_setCalls (env : Env) (c : Nat) (q : String) (k : Bytes) :
    Env.entryAt { env with calls := c } q k = env.entryAt q k := rfl

/-! ### Witness scaffolding: a concrete token type, codec and environments -/

/-- A concrete codec for witnesses: a token is a `Nat`, stored as a
single-byte sequence. -/
def de0 : Bytes → Option Nat :=
  fun b => match b with | [n] => some n | _ => none

def ser0 : Nat → Option Bytes := fun n => some [n]

/-- A codec double whose serializer always fails, for exercising the
`SerializationError` paths. -/
def serFail : Nat → Option Bytes := fun _ => none

/-- Concrete witness environment: partition `pA` holds `[1] ↦ [42]`, its
store fails `put` on key `[5]`, key `[7]` fails `get`, and partition `pBad`
fails to open. -/
def envW : Env :=
  ⟨[("pA", ⟨[([1], [42]), ([3], [9, 9])], [([7], "getboom")], [([5], "boom")]⟩)],
   [("pBad", "openboom")], 0⟩

def sW : ProviderState Nat := initState envW

/-! ### The claims -/

/-- Claim C2: write-through atomicity of `save_data` — when the backend `put`
fails, `save_data` returns the wrapped store error, the data-cache is left
exactly as it was (so it does not contain the new bytes and any previously
cached value for the key is untouched), and no durable entry of any
partition changes. -/
theorem c2_save_data_write_through {Token : Type} (s : ProviderState Token)
    (key d : Bytes) (p : String) (m : String)
    (ho : s.env.openFail p = none) (hp : s.env.putFail p key = some m) :
    (SafeDataProvider.save_data s key d p).1 = .error (.FromStore m) ∧
    ((SafeDataProvider.save_data s key d p).2).dataCache = s.dataCache ∧
    ∀ q k2, ((SafeDataProvider.save_data s key d p).2).env.entryAt q k2 =
      s.env.entryAt q k2 := by
  rw [SafeDataProvider.save_data_putErr_eq s key d p m ho hp]
  refine ⟨rfl, rfl, ?_⟩
  intro q k2
  rw [Env.entryAt_setCalls, Env.getDb_entryAt]

/-- Claim C2 witness: partition `pA` of `envW` fails `put` on key `[5]`,
so `save_data` surfaces the store error and the cache stays empty. -/
theorem c2_save_data_write_through_witness :
    sW.env.openFail "pA" = none ∧ sW.env.putFail "pA" [5] = some "boom" ∧
    (SafeDataProvider.save_data sW [5] [9] "pA").1 = .error (.FromStore "boom") ∧
    ((SafeDataProvider.save_data sW [5] [9] "pA").2).dataCache = sW.dataCache := by
  have h := c2_save_data_write_through sW [5] [9] "pA" "boom" (by decide) (by decide)
  exact ⟨by decide, by decide, h.1, h.2.1⟩

/-- Claim C4: poisoned-lock propagation — if the write lock of the handle
passed to `save_token` or `save_locked_data` is poisoned, the operation
returns `Poisoned` (whenever the partition opens at all; a failed open is
reported as its own store error before the lock is ever touched), and in
every case it performs no backend write and leaves both caches and every
partition's durable entries unchanged. -/
theorem c4_poisoned_lock_propagation {Token T : Type}
    (ser : Token → Option Bytes) (serT : T → Option Bytes)
    (s : ProviderState Token) (key : Bytes) (h : Handle Token) (hT : Handle T)
    (p : String) (hp : h.poisoned = true) (hpT : hT.poisoned = true) :
    (s.env.openFail p = none →
      (SafeDataProvider.save_token ser s key h p).1 = .error .Poisoned) ∧
    ((SafeDataProvider.save_token ser s key h p).2).tokenCache = s.tokenCache ∧
    ((SafeDataProvider.save_token ser s key h p).2).dataCache = s.dataCache ∧
    (∀ q k2, ((SafeDataProvider.save_token ser s key h p).2).env.entryAt q k2 =
      s.env.entryAt q k2) ∧
    (s.env.openFail p = none →
      (SafeDataProvider.save_locked_data serT s key hT p).1 = .error .Poisoned) ∧
    ((SafeDataProvider.save_locked_data serT s key hT p).2).tokenCache =
      s.tokenCache ∧
    ((SafeDataProvider.save_locked_data serT s key hT p).2).dataCache =
      s.dataCache ∧
    (∀ q k2,
      ((SafeDataProvider.save_locked_data serT s key hT p).2).env.entryAt q k2 =
        s.env.entryAt q k2) := by
  rcases ho : s.env.openFail p with _ | m
  · rw [SafeDataProvider.save_token_poisoned_eq ser s key h p ho hp,
        SafeDataProvider.save_locked_data_poisoned_eq serT s key hT p ho hpT]
    exact ⟨fun _ => rfl, rfl, rfl, fun q k2 => Env.getDb_entryAt s.env p q k2,
           fun _ => rfl, rfl, rfl, fun q k2 => Env.getDb_entryAt s.env p q k2⟩
  · rw [SafeDataProvider.save_token_openErr ser s key h p m ho,
        SafeDataProvider.save_locked_data_openErr serT s key hT p m ho]
    refine ⟨fun hc => ?_, rfl, rfl,
            fun q k2 => Env.getDb_entryAt s.env p q k2,
            fun hc => ?_, rfl, rfl,
            fun q k2 => Env.getDb_entryAt s.env p q k2⟩
    · exact Option.noConfusion hc
    · exact Option.noConfusion hc

/-- Claim C4 witness: a poisoned handle under partition `pA` of `envW` makes
both save operations fail with `Poisoned` and change nothing. -/
theorem c4_poisoned_lock_propagation_witness :
    (SafeDataProvider.save_token ser0 sW [1] ⟨9, 5, true⟩ "pA").1 =
      .error .Poisoned ∧
    (SafeDataProvider.save_locked_data ser0 sW [1] ⟨9, 5, true⟩ "pA").1 =
      .error .Poisoned ∧
    ((SafeDataProvider.save_token ser0 sW [1] ⟨9, 5, true⟩ "pA").2).env.entryAt
      "pA" [1] = sW.env.entryAt "pA" [1] := by
  have h := c4_poisoned_lock_propagation ser0 ser0 sW [1]
    (⟨9, 5, true⟩ : Handle Nat) (⟨9, 5, true⟩ : Handle Nat) "pA" rfl rfl
  exact ⟨h.1 (by decide), h.2.2.2.2.1 (by decide), h.2.2.2.1 "pA" [1]⟩

/-- Claim C5: handle identity after `save_token` — on success the token-cache
entry for the key is the very handle the caller passed in (same shared
object), the serialized bytes are durably stored, and on any failure the
token-cache is unchanged (the cache is installed only after the durable
write succeeds). -/
theorem c5_save_token_handle_identity {Token : Type}
    (ser : Token → Option Bytes) (s : ProviderState Token) (key : Bytes)
    (h : Handle Token) (p : String) :
    (∀ d, s.env.openFail p = none → h.poisoned = false →
      ser h.value = some d → s.env.putFail p key = none →
      (SafeDataProvider.save_token ser s key h p).1 = .ok () ∧
      lookupA ((SafeDataProvider.save_token ser s key h p).2).tokenCache key =
        some h ∧
      ((SafeDataProvider.save_token ser s key h p).2).env.entryAt p key =
        some d) ∧
    (∀ e, (SafeDataProvider.save_token ser s key h p).1 = .error e →
      ((SafeDataProvider.save_token ser s key h p).2).tokenCache =
        s.tokenCache) := by
  constructor
  · intro d ho hp hs hput
    rw [SafeDataProvider.save_token_ok_eq ser s key d h p ho hp hs hput]
    refine ⟨rfl, lookupA_insertA_self _ _ _, ?_⟩
    show ((s.env.getDb p).2.storePut p key d).2.entryAt p key = some d
    have hput1 : (s.env.getDb p).2.putFail p key = none := by
      rw [Env.getDb_putFail]
      exact hput
    exact Env.storePut_entryAt_self _ p key d hput1
  · intro e
    rcases ho : s.env.openFail p with _ | m
    · rcases hp : h.poisoned with _ | _
      · rcases hs : ser h.value with _ | d
        · rw [SafeDataProvider.save_token_serErr_eq ser s key h p ho hp hs]
          intro _
          rfl
        · rcases hput : s.env.putFail p key with _ | m2
          · rw [SafeDataProvider.save_token_ok_eq ser s key d h p ho hp hs hput]
            intro hc
            cases hc
          · rw [SafeDataProvider.save_token_putErr_eq ser s key d h p m2 ho hp
                  hs hput]
            intro _
            rfl
      · rw [SafeDataProvider.save_token_poisoned_eq ser s key h p ho hp]
        intro _
        rfl
    · rw [SafeDataProvider.save_token_openErr ser s key h p m ho]
      intro _
      rfl

/-- Claim C5 witness: saving a healthy handle for key `[2]` in partition `pA`
of `envW` installs that very handle in the token cache and stores its
serialized byte. -/
theorem c5_save_token_handle_identity_witness :
    (SafeDataProvider.save_token ser0 sW [2] ⟨8, 6, false⟩ "pA").1 = .ok () ∧
    lookupA ((SafeDataProvider.save_token ser0 sW [2] ⟨8, 6, false⟩ "pA").2).tokenCache
      [2] = some ⟨8, 6, false⟩ ∧
    ((SafeDataProvider.save_token ser0 sW [2] ⟨8, 6, false⟩ "pA").2).env.entryAt
      "pA" [2] = some [6] := by
  have h := (c5_save_token_handle_identity ser0 sW [2]
    (⟨8, 6, false⟩ : Handle Nat) "pA").1 [6] (by decide) rfl rfl (by decide)
  exact h

/-- Claim C7: refinement of `save_typed_data` — when serialization succeeds it
behaves exactly as `save_data` on the serialized bytes (same backend write,
same data-cache update, same result, as one equation between the two
operations); when serialization fails (the partition having opened, which the
source does first) it returns `SerializationError` and writes nothing to the
backend or the cache. -/
theorem c7_save_typed_data_refines_save_data {Token T : Type}
    (ser : T → Option Bytes) (s : ProviderState Token) (key : Bytes) (v : T)
    (p : String) :
    (∀ d, ser v = some d →
      SafeDataProvider.save_typed_data ser s key v p =
        SafeDataProvider.save_data s key d p) ∧
    (ser v = none → s.env.openFail p = none →
      (SafeDataProvider.save_typed_data ser s key v p).1 =
        .error .SerializationError ∧
      ((SafeDataProvider.save_typed_data ser s key v p).2).dataCache =
        s.dataCache ∧
      ∀ q k2,
        ((SafeDataProvider.save_typed_data ser s key v p).2).env.entryAt q k2 =
          s.env.entryAt q k2) := by
  constructor
  · intro d hs
    exact SafeDataProvider.save_typed_data_ser_ok ser s key v d p hs
  · intro hs ho
    rw [SafeDataProvider.save_typed_data_ser_none ser s key v p ho hs]
    exact ⟨rfl, rfl, fun q k2 => Env.getDb_entryAt s.env p q k2⟩

/-- Claim C7 witness: with the always-failing serializer the typed save
reports `SerializationError` and leaves cache and stores alone, and with the
succeeding serializer it coincides with `save_data` on the bytes. -/
theorem c7_save_typed_data_refines_save_data_witness :
    SafeDataProvider.save_typed_data ser0 sW [2] 6 "pA" =
      SafeDataProvider.save_data sW [2] [6] "pA" ∧
    (SafeDataProvider.save_typed_data serFail sW [2] 6 "pA").1 =
      .error .SerializationError ∧
    ((SafeDataProvider.save_typed_data serFail sW [2] 6 "pA").2).dataCache =
      sW.dataCache := by
  have h1 := (c7_save_typed_data_refines_save_data ser0 sW [2] 6 "pA").1 [6] rfl
  have h2 := (c7_save_typed_data_refines_save_data serFail sW [2] 6 "pA").2
    rfl (by decide)
  exact ⟨h1, h2.1, h2.2.1⟩

/-- Claim C8: shared physical keyspace inside one backend — after a
successful backend-level `save_token`, a backend-level `get_data` on the same
partition store (its `get` not failing) returns exactly the token's
serialized bytes: tokens are raw bytes under the very key data uses. -/
theorem c8_token_data_shared_keyspace {Token : Type}
    (ser : Token → Option Bytes) (env : Env) (p : String) (key d : Bytes)
    (h : Handle Token)
    (hp : h.poisoned = false) (hs : ser h.value = some d)
    (hput : env.putFail p key = none) (hget : env.getFail p key = none) :
    (RocksDb.save_token ser env p key h).1 = .ok () ∧
    (RocksDb.get_data ((RocksDb.save_token ser env p key h).2) p key).1 =
      .ok d := by
  rw [RocksDb.save_token_ok ser env p key d h hp hs hput]
  refine ⟨rfl, ?_⟩
  have hget1 : ((env.storePut p key d).2).getFail p key = none := by
    rw [Env.storePut_getFail]
    exact hget
  have hent1 : ((env.storePut p key d).2).entryAt p key = some d :=
    Env.storePut_entryAt_self env p key d hput
  rw [RocksDb.get_data_found _ p key d hget1 hent1]

/-- Claim C8 witness: storing token `6` under key `[2]` in partition `pA` of
`envW` makes a raw backend read of `[2]` return its serialized byte `[6]`. -/
theorem c8_token_data_shared_keyspace_witness :
    (RocksDb.save_token ser0 envW "pA" [2] ⟨8, 6, false⟩).1 = .ok () ∧
    (RocksDb.get_data ((RocksDb.save_token ser0 envW "pA" [2] ⟨8, 6, false⟩).2)
      "pA" [2]).1 = .ok [6] := by
  exact c8_token_data_shared_keyspace ser0 envW "pA" [2] [6]
    (⟨8, 6, false⟩ : Handle Nat) rfl rfl (by decide) (by decide)

/-- Claim C9: not-found propagation — when the key is absent from the
data-cache and from the partition's backend store, facade `get_data` returns
`DataNotFound` and never a handle (in particular never empty bytes); backend
`get_data` is a direct passthrough: stored bytes come back untouched and
absence is `DataNotFound`. -/
theorem c9_not_found_propagation {Token : Type} (s : ProviderState Token)
    (key : Bytes) (p : String) :
    (lookupA s.dataCache key = none → s.env.openFail p = none →
      s.env.getFail p key = none → s.env.entryAt p key = none →
      (SafeDataProvider.get_data s key p).1 = .error .DataNotFound ∧
      ∀ hnd, (SafeDataProvider.get_data s key p).1 ≠ .ok hnd) ∧
    (∀ env d, Env.getFail env p key = none → Env.entryAt env p key = some d →
      (RocksDb.get_data env p key).1 = .ok d) ∧
    (∀ env, Env.getFail env p key = none → Env.entryAt env p key = none →
      (RocksDb.get_data env p key).1 = .error .DataNotFound) := by
  refine ⟨?_, ?_, ?_⟩
  · intro hm ho hg he
    rw [SafeDataProvider.get_data_miss_notFound s key p hm ho hg he]
    exact ⟨rfl, fun hnd hc => Except.noConfusion hc⟩
  · intro env d hg he
    rw [RocksDb.get_data_found env p key d hg he]
  · intro env hg he
    rw [RocksDb.get_data_notFound env p key hg he]

/-- Claim C9 witness: key `[6]` is nowhere in `envW`'s partition `pA`, so the
facade read yields `DataNotFound`, while the stored key `[1]` passes through
the backend untouched. -/
theorem c9_not_found_propagation_witness :
    (SafeDataProvider.get_data sW [6] "pA").1 = .error .DataNotFound ∧
    (RocksDb.get_data envW "pA" [1]).1 = .ok [42] ∧
    (RocksDb.get_data envW "pA" [6]).1 = .error .DataNotFound := by
  have h := c9_not_found_propagation sW [6] "pA"
  exact ⟨(h.1 rfl (by decide) (by decide) (by decide)).1,
         (c9_not_found_propagation sW [1] "pA").2.1 envW [42] (by decide)
           (by decide),
         h.2.2 envW (by decide) (by decide)⟩

/-- Claim C3: the `get_token` contract — on a cache hit the existing cached
handle is returned with the whole state (hence the backend-call counter)
untouched; on a miss with the partition open and the store `get` not failing,
a successful load wraps the deserialized token in a fresh handle, inserts it,
and returns exactly the handle the re-read cache now holds; the result is
`DataNotFound` iff the key is absent in the backend, `DeserializationError`
iff the stored bytes fail to parse, and `CacheError` is returned iff the
post-insert re-read misses — which in this map model never happens. -/
theorem c3_get_token_contract {Token : Type} (de : Bytes → Option Token)
    (s : ProviderState Token) (key : Bytes) (p : String) :
    (∀ h, lookupA s.tokenCache key = some h →
      SafeDataProvider.get_token de s key p = (.ok h, s)) ∧
    (lookupA s.tokenCache key = none → s.env.openFail p = none →
      s.env.getFail p key = none →
      ((∀ d t, s.env.entryAt p key = some d → de d = some t →
        (SafeDataProvider.get_token de s key p).1 = .ok ⟨s.nextId, t, false⟩ ∧
        lookupA ((SafeDataProvider.get_token de s key p).2).tokenCache key =
          some ⟨s.nextId, t, false⟩) ∧
       ((SafeDataProvider.get_token de s key p).1 = .error .DataNotFound ↔
         s.env.entryAt p key = none) ∧
       (∀ d, s.env.entryAt p key = some d →
         ((SafeDataProvider.get_token de s key p).1 =
            .error .DeserializationError ↔ de d = none)))) ∧
    (SafeDataProvider.get_token de s key p).1 ≠ .error .CacheError := by
  refine ⟨?_, ?_, ?_⟩
  · intro h hh
    exact SafeDataProvider.get_token_hit de s key p h hh
  · intro hm ho hg
    refine ⟨?_, ?_, ?_⟩
    · intro d t he hd
      rw [SafeDataProvider.get_token_miss_found de s key p d t hm ho hg he hd]
      exact ⟨rfl, lookupA_insertA_self _ _ _⟩
    · rcases he : s.env.entryAt p key with _ | d
      · rw [SafeDataProvider.get_token_miss_notFound de s key p hm ho hg he]
        simp
      · rcases hd : de d with _ | t
        · rw [SafeDataProvider.get_token_miss_deserErr de s key p d hm ho hg
                he hd]
          simp
        · rw [SafeDataProvider.get_token_miss_found de s key p d t hm ho hg
                he hd]
          simp
    · intro d he
      rcases hd : de d with _ | t
      · rw [SafeDataProvider.get_token_miss_deserErr de s key p d hm ho hg
              he hd]
        simp
      · rw [SafeDataProvider.get_token_miss_found de s key p d t hm ho hg
              he hd]
        simp [hd]
  · rcases hm : lookupA s.tokenCache key with _ | h
    · rcases ho : s.env.openFail p with _ | m
      · rcases hg : s.env.getFail p key with _ | m
        · rcases he : s.env.entryAt p key with _ | d
          · rw [SafeDataProvider.get_token_miss_notFound de s key p hm ho hg he]
            simp
          · rcases hd : de d with _ | t
            · rw [SafeDataProvider.get_token_miss_deserErr de s key p d hm ho
                    hg he hd]
              simp
            · rw [SafeDataProvider.get_token_miss_found de s key p d t hm ho
                    hg he hd]
              simp
        · rw [SafeDataProvider.get_token_miss_storeErr de s key p m hm ho hg]
          simp
      · rw [SafeDataProvider.get_token_openErr de s key p m hm ho]
        simp
    · rw [SafeDataProvider.get_token_hit de s key p h hm]
      simp

/-- Claim C3 witness: in `envW`, key `[1]` deserializes to token `42` and is
loaded into a fresh handle on a miss, key `[6]` is absent (`DataNotFound`),
and key `[3]` holds malformed bytes (`DeserializationError`). -/
theorem c3_get_token_contract_witness :
    (SafeDataProvider.get_token de0 sW [1] "pA").1 = .ok ⟨0, 42, false⟩ ∧
    lookupA ((SafeDataProvider.get_token de0 sW [1] "pA").2).tokenCache [1] =
      some ⟨0, 42, false⟩ ∧
    (SafeDataProvider.get_token de0 sW [6] "pA").1 = .error .DataNotFound ∧
    (SafeDataProvider.get_token de0 sW [3] "pA").1 =
      .error .DeserializationError := by
  have h1 := ((c3_get_token_contract de0 sW [1] "pA").2.1 rfl (by decide)
    (by decide)).1 [42] 42 (by decide) rfl
  have h2 := ((c3_get_token_contract de0 sW [6] "pA").2.1 rfl (by decide)
    (by decide)).2.1.mpr (by decide)
  have h3 := (((c3_get_token_contract de0 sW [3] "pA").2.1 rfl (by decide)
    (by decide)).2.2 [9, 9] (by decide)).mpr rfl
  exact ⟨h1.1, h1.2, h2, h3⟩

/-- Claim C6: cache-aside round trip — for a key not yet cached, after a
successful `save_data(k, v)` in the same partition, `get_data(k)` returns the
handle around exactly `v` and leaves the state untouched, and a second
`get_data(k)` performs no backend access at all (the backend-call counter
after it equals the counter right after the save). -/
theorem c6_cache_aside_round_trip {Token : Type} (s : ProviderState Token)
    (k v : Bytes) (p : String)
    (_hm : lookupA s.dataCache k = none) (ho : s.env.openFail p = none)
    (hput : s.env.putFail p k = none) :
    (SafeDataProvider.save_data s k v p).1 = .ok () ∧
    SafeDataProvider.get_data (SafeDataProvider.save_data s k v p).2 k p =
      (.ok ⟨s.nextId, v, false⟩, (SafeDataProvider.save_data s k v p).2) ∧
    ((SafeDataProvider.get_data
        (SafeDataProvider.get_data
          (SafeDataProvider.save_data s k v p).2 k p).2 k p).2).env.calls =
      ((SafeDataProvider.save_data s k v p).2).env.calls := by
  have hsd := SafeDataProvider.save_data_ok_eq s k v p ho hput
  have hcache : lookupA ((SafeDataProvider.save_data s k v p).2).dataCache k =
      some ⟨s.nextId, v, false⟩ := by
    rw [hsd]
    exact lookupA_insertA_self _ _ _
  have hget := SafeDataProvider.get_data_hit
    (SafeDataProvider.save_data s k v p).2 k p _ hcache
  refine ⟨by rw [hsd], hget, ?_⟩
  rw [hget, hget]

/-- Claim C6 witness: key `[2]` is uncached in `sW`; after saving `[7, 7]`
there, the read returns those bytes from the cache and a repeat read leaves
the backend-call counter unchanged. -/
theorem c6_cache_aside_round_trip_witness :
    (SafeDataProvider.save_data sW [2] [7, 7] "pA").1 = .ok () ∧
    (SafeDataProvider.get_data
      (SafeDataProvider.save_data sW [2] [7, 7] "pA").2 [2] "pA").1 =
      .ok ⟨0, [7, 7], false⟩ ∧
    ((SafeDataProvider.get_data
        (SafeDataProvider.get_data
          (SafeDataProvider.save_data sW [2] [7, 7] "pA").2 [2] "pA").2
        [2] "pA").2).env.calls =
      ((SafeDataProvider.save_data sW [2] [7, 7] "pA").2).env.calls := by
  have h := c6_cache_aside_round_trip sW [2] [7, 7] "pA" rfl (by decide)
    (by decide)
  refine ⟨h.1, ?_, h.2.2⟩
  rw [h.2.1]
  rfl

/-- Fresh process state over empty stores for the partition-isolation
scenario (`Token` is irrelevant to the data path, so `Unit`). -/
def sIso : ProviderState Unit := initState ⟨[], [], 0⟩

def sIso1 : ProviderState Unit :=
  (SafeDataProvider.save_data sIso [1, 2, 3] [1, 2, 3] "part-A").2

/-- Claim C1 counterexample: starting from empty caches,
`save_data([1,2,3], "part-A")` succeeds and `get_data([1,2,3], "part-A")`
returns the bytes, but `get_data([1,2,3], "part-B")` does NOT return
`DataNotFound` — it returns the very same cached bytes, because the data
cache is keyed by key only and is shared by all partitions (lib.rs 31-32
consults the cache before the partition is ever looked at). -/
theorem c1_partition_isolation_counterexample :
    (SafeDataProvider.save_data sIso [1, 2, 3] [1, 2, 3] "part-A").1 =
      .ok () ∧
    (SafeDataProvider.get_data sIso1 [1, 2, 3] "part-A").1 =
      .ok ⟨0, [1, 2, 3], false⟩ ∧
    (SafeDataProvider.get_data sIso1 [1, 2, 3] "part-B").1 =
      .ok ⟨0, [1, 2, 3], false⟩ ∧
    (SafeDataProvider.get_data sIso1 [1, 2, 3] "part-B").1 ≠
      .error .DataNotFound := by
  exact ⟨by decide, by decide, by decide, by decide⟩

/-- Claim C1 amended: partition isolation holds at the backend but not at the
cache — from empty caches and stores, after a successful
`save_data(k, v, pA)`, `get_data(k, pA)` returns the cached handle around
`v`, and `get_data(k, pB)` for any other partition `pB` returns that same
cached handle as well (the shared data cache answers before the partition is
consulted), even though partition `pB`'s backend store does not contain the
key. -/
theorem c1_partition_isolation_amended (k v : Bytes) (pA pB : String)
    (hne : pA ≠ pB) :
    (SafeDataProvider.save_data sIso k v pA).1 = .ok () ∧
    (SafeDataProvider.get_data
      (SafeDataProvider.save_data sIso k v pA).2 k pA).1 =
      .ok ⟨0, v, false⟩ ∧
    (SafeDataProvider.get_data
      (SafeDataProvider.save_data sIso k v pA).2 k pB).1 =
      .ok ⟨0, v, false⟩ ∧
    ((SafeDataProvider.save_data sIso k v pA).2).env.entryAt pB k = none := by
  have ho : sIso.env.openFail pA = none := rfl
  have hput : sIso.env.putFail pA k = none := rfl
  have hsd := SafeDataProvider.save_data_ok_eq sIso k v pA ho hput
  have hcache : lookupA ((SafeDataProvider.save_data sIso k v pA).2).dataCache
      k = some ⟨0, v, false⟩ := by
    rw [hsd]
    exact lookupA_insertA_self _ _ _
  refine ⟨by rw [hsd], ?_, ?_, ?_⟩
  · rw [SafeDataProvider.get_data_hit _ k pA _ hcache]
  · rw [SafeDataProvider.get_data_hit _ k pB _ hcache]
  · rw [hsd]
    show ((sIso.env.getDb pA).2.storePut pA k v).2.entryAt pB k = none
    rw [Env.storePut_entryAt_ne_p _ pA pB k k v hne, Env.getDb_entryAt]
    rfl

/-- Claim C1 amended witness: the concrete `[1,2,3]` / part-A / part-B
scenario of the spec, replayed under the amended statement. -/
theorem c1_partition_isolation_amended_witness :
    (SafeDataProvider.get_data sIso1 [1, 2, 3] "part-B").1 =
      .ok ⟨0, [1, 2, 3], false⟩ ∧
    sIso1.env.entryAt "part-B" [1, 2, 3] = none := by
  have h := c1_partition_isolation_amended [1, 2, 3] [1, 2, 3] "part-A"
    "part-B" (by decide)
  exact ⟨h.2.2.1, h.2.2.2⟩

set_option linter.unreachableTactic false
set_option linter.unusedTactic false

/-- Claim C10: both the token cache and the data cache are built by the
module-level constructors with a hardcoded `Duration::from_secs(30)`
time-to-idle (30000 milliseconds); the initial process state carries exactly
those configurations, and no public facade operation ever changes the
configuration either cache was built with — the idle-expiry duration cannot
be supplied or altered through the public surface. -/
theorem c10_cache_tti_hardcoded {Token T : Type} :
    get_token_cache.tti = some (Duration.from_secs 30) ∧
    get_data_cache.tti = some (Duration.from_secs 30) ∧
    Duration.from_secs 30 = ⟨30000⟩ ∧
    (∀ env : Env,
      (initState env : ProviderState Token).tokenCacheCfg = get_token_cache ∧
      (initState env : ProviderState Token).dataCacheCfg = get_data_cache) ∧
    (∀ (de : Bytes → Option Token) (s : ProviderState Token) (key : Bytes)
        (p : String),
      ((SafeDataProvider.get_token de s key p).2).tokenCacheCfg =
        s.tokenCacheCfg ∧
      ((SafeDataProvider.get_token de s key p).2).dataCacheCfg =
        s.dataCacheCfg) ∧
    (∀ (ser : Token → Option Bytes) (s : ProviderState Token) (key : Bytes)
        (h : Handle Token) (p : String),
      ((SafeDataProvider.save_token ser s key h p).2).tokenCacheCfg =
        s.tokenCacheCfg ∧
      ((SafeDataProvider.save_token ser s key h p).2).dataCacheCfg =
        s.dataCacheCfg) ∧
    (∀ (s : ProviderState Token) (key d : Bytes) (p : String),
      ((SafeDataProvider.get_data s key p).2).tokenCacheCfg =
          s.tokenCacheCfg ∧
      ((SafeDataProvider.get_data s key p).2).dataCacheCfg =
          s.dataCacheCfg ∧
      ((SafeDataProvider.save_data s key d p).2).tokenCacheCfg =
          s.tokenCacheCfg ∧
      ((SafeDataProvider.save_data s key d p).2).dataCacheCfg =
          s.dataCacheCfg) ∧
    (∀ (ser : T → Option Bytes) (s : ProviderState Token) (key : Bytes)
        (v : T) (h : Handle T) (p : String),
      ((SafeDataProvider.save_typed_data ser s key v p).2).tokenCacheCfg =
        s.tokenCacheCfg ∧
      ((SafeDataProvider.save_typed_data ser s key v p).2).dataCacheCfg =
        s.dataCacheCfg ∧
      ((SafeDataProvider.save_locked_data ser s key h p).2).tokenCacheCfg =
        s.tokenCacheCfg ∧
      ((SafeDataProvider.save_locked_data ser s key h p).2).dataCacheCfg =
        s.dataCacheCfg) := by
  refine ⟨rfl, rfl, rfl, fun env => ⟨rfl, rfl⟩, ?_, ?_, ?_, ?_⟩
  · intro de s key p
    constructor <;>
      (unfold SafeDataProvider.get_token
       (repeat' split) <;> first | rfl | simp [lookupA, insertA])
  · intro ser s key h p
    constructor <;>
      (unfold SafeDataProvider.save_token
       (repeat' split) <;> first | rfl | simp [lookupA, insertA])
  · intro s key d p
    refine ⟨?_, ?_, ?_, ?_⟩ <;>
      first
        | (unfold SafeDataProvider.get_data
           (repeat' split) <;> first | rfl | simp [lookupA, insertA])
        | (unfold SafeDataProvider.save_data
           (repeat' split) <;> first | rfl | simp [lookupA, insertA])
  · intro ser s key v h p
    refine ⟨?_, ?_, ?_, ?_⟩ <;>
      first
        | (unfold SafeDataProvider.save_typed_data
           (repeat' split) <;> first | rfl | simp [lookupA, insertA])
        | (unfold SafeDataProvider.save_locked_data
           (repeat' split) <;> first | rfl | simp [lookupA, insertA])

end Pneumatic
